import Mathlib

/-!
# Product routes of the JS-REST-API service

A shallow embedding of `src/routes/productRoutes.js`: the six Express handlers
mounted under `/products`, the JavaScript built-ins they rely on
(`Number(...)`, `Number.isNaN`, truthiness, property access) and the Mongoose
model `Product` they call, which appears here as a record of fallible
operations.

Every handler returns an `Outcome`: the responses it sent, the calls it made on
the model, and the exception its `catch` block received (if any).
-/

namespace ProductRoutes

/-! ## JavaScript numbers -/

/-- A JavaScript Number. A finite value is the dyadic rational
`num / 2 ^ scale`, kept in lowest terms (`scale = 0` or `num` odd), which is
the shape of every finite binary64 value. Negative zero is identified with
zero: the handlers only test a number for truthiness and for `NaN`, and both
zeros answer alike. -/
inductive JSNumber where
  | nan
  | inf (neg : Bool)
  | fin (num : Int) (scale : Nat)
deriving DecidableEq, Repr

namespace JSNumber

/-- The test `Number.isNaN(x)` for a value that is a Number. -/
def isNaN : JSNumber → Bool
  | nan => true
  | _ => false

/-- The test `Number.isInteger(x)`: finite with no fractional part. -/
def isInteger : JSNumber → Bool
  | fin _ 0 => true
  | _ => false

/-- ToBoolean on a Number: `NaN` and zero are falsy. -/
def truthy : JSNumber → Bool
  | nan => false
  | inf _ => true
  | fin num _ => num != 0

/-- Unary minus. -/
def neg : JSNumber → JSNumber
  | nan => nan
  | inf b => inf (!b)
  | fin num scale => fin (-num) scale

end JSNumber

/-! ## StringToNumber -/

/-- Position of the leading bit of `n` (0 for `n < 2`), by halving at most
`fuel` times. -/
def log2Aux : Nat → Nat → Nat
  | 0, _ => 0
  | fuel + 1, n => if n < 2 then 0 else log2Aux fuel (n / 2) + 1

/-- The integer nearest to `n / d`, ties going to the even neighbour. -/
def roundHalfEven (n d : Nat) : Nat :=
  let k := n / d
  let r := n % d
  if 2 * r < d then k
  else if d < 2 * r then k + 1
  else if k % 2 = 0 then k else k + 1

/-- The exponent `e` with `2 ^ e ≤ n / d < 2 ^ (e + 1)`, for positive `n`, `d`. -/
def floorLog2 (n d : Nat) : Int :=
  let c : Int := (log2Aux n n : Int) - (log2Aux d d : Int)
  if 0 ≤ c then (if d * 2 ^ c.toNat ≤ n then c else c - 1)
  else (if d ≤ n * 2 ^ (-c).toNat then c else c - 1)

/-- Lowest terms of `k / 2 ^ s`. -/
def reduceDyadic : Nat → Nat → Nat × Nat
  | k, 0 => (k, 0)
  | k, s + 1 => if k % 2 = 0 then reduceDyadic (k / 2) s else (k, s + 1)

/-- The binary64 value nearest to the non-negative rational `n / d` (round to
nearest, ties to even; 53 significant bits, least exponent `-1074`), or
`+Infinity` from `2 ^ 1024` on. -/
def roundBinary64 (n d : Nat) : JSNumber :=
  if n = 0 then .fin 0 0
  else
    let e := floorLog2 n d
    let p : Int := if e - 52 < -1074 then -1074 else e - 52
    if 0 ≤ p then
      let v := roundHalfEven n (d * 2 ^ p.toNat) * 2 ^ p.toNat
      if 2 ^ 1024 ≤ v then .inf false else .fin (Int.ofNat v) 0
    else
      let r := reduceDyadic (roundHalfEven (n * 2 ^ (-p).toNat) d) (-p).toNat
      .fin (Int.ofNat r.1) r.2

/-- StrWhiteSpaceChar: the WhiteSpace and LineTerminator code points. -/
def isStrWhiteSpaceChar (c : Char) : Bool :=
  let n := c.toNat
  n == 0x9 || n == 0xA || n == 0xB || n == 0xC || n == 0xD || n == 0x20 ||
  n == 0xA0 || n == 0x1680 || (0x2000 ≤ n && n ≤ 0x200A) || n == 0x2028 ||
  n == 0x2029 || n == 0x202F || n == 0x205F || n == 0x3000 || n == 0xFEFF

/-- The string without its leading and trailing StrWhiteSpace. -/
def trimWhiteSpace (cs : List Char) : List Char :=
  ((cs.dropWhile isStrWhiteSpaceChar).reverse.dropWhile isStrWhiteSpaceChar).reverse

/-- The value of `c` as a digit of the given base (at most 16). -/
def digitValue (base : Nat) (c : Char) : Option Nat :=
  let n := c.toNat
  let v :=
    if 48 ≤ n && n ≤ 57 then some (n - 48)
    else if 97 ≤ n && n ≤ 102 then some (n - 87)
    else if 65 ≤ n && n ≤ 70 then some (n - 55)
    else none
  match v with
  | some d => if d < base then some d else none
  | none => none

/-- The value of a run of digits read so far as `acc`; `none` when a character
is not a digit of the base. -/
def digitsValueAux (base : Nat) : Nat → List Char → Option Nat
  | acc, [] => some acc
  | acc, c :: cs =>
    match digitValue base c with
    | some d => digitsValueAux base (acc * base + d) cs
    | none => none

/-- The value of a non-empty run of digits of the base. -/
def digitsValue (base : Nat) (cs : List Char) : Option Nat :=
  if cs.isEmpty then none else digitsValueAux base 0 cs

/-- The value of a possibly empty run of decimal digits (empty counts 0). -/
def optDigitsValue (cs : List Char) : Option Nat :=
  digitsValueAux 10 0 cs

/-- ExponentPart after its `e`: an optional sign and decimal digits. -/
def exponentValue : List Char → Option Int
  | '+' :: cs => (digitsValue 10 cs).map Int.ofNat
  | '-' :: cs => (digitsValue 10 cs).map (fun n => - Int.ofNat n)
  | cs => (digitsValue 10 cs).map Int.ofNat

/-- StrUnsignedDecimalLiteral other than `Infinity`:
`digits . digits? exp?`, `. digits exp?` or `digits exp?`. The result is the
mathematical value as numerator, denominator. -/
def unsignedDecimalValue (cs : List Char) : Option (Nat × Nat) :=
  let (mant, expPart) := cs.span (fun c => c != 'e' && c != 'E')
  let (intDigits, fracPart) := mant.span (fun c => c != '.')
  let fracDigits := fracPart.drop 1
  if intDigits.isEmpty && fracDigits.isEmpty then none
  else
    match optDigitsValue intDigits, optDigitsValue fracDigits,
        (match expPart with
          | [] => some (0 : Int)
          | _ :: ex => exponentValue ex) with
    | some i, some f, some ex =>
      let m := i * 10 ^ fracDigits.length + f
      let x : Int := ex - Int.ofNat fracDigits.length
      if 0 ≤ x then some (m * 10 ^ x.toNat, 1) else some (m, 10 ^ (-x).toNat)
    | _, _, _ => none

/-- StrUnsignedDecimalLiteral. -/
def unsignedDecimal (cs : List Char) : JSNumber :=
  if cs = "Infinity".toList then .inf false
  else
    match unsignedDecimalValue cs with
    | some (n, d) => roundBinary64 n d
    | none => .nan

/-- StrNumericLiteral: a signed decimal literal or an unsigned literal in
base 16, 8 or 2. -/
def strNumericLiteral : List Char → JSNumber
  | '0' :: 'x' :: cs | '0' :: 'X' :: cs =>
    match digitsValue 16 cs with
    | some n => roundBinary64 n 1
    | none => .nan
  | '0' :: 'o' :: cs | '0' :: 'O' :: cs =>
    match digitsValue 8 cs with
    | some n => roundBinary64 n 1
    | none => .nan
  | '0' :: 'b' :: cs | '0' :: 'B' :: cs =>
    match digitsValue 2 cs with
    | some n => roundBinary64 n 1
    | none => .nan
  | '+' :: cs => unsignedDecimal cs
  | '-' :: cs => (unsignedDecimal cs).neg
  | cs => unsignedDecimal cs

/-- StringToNumber, which is `Number(s)` for a string `s`: white space is
trimmed, the empty string is `0`, a StrNumericLiteral has its value rounded to
binary64, anything else is `NaN`. -/
def stringToNumber (s : String) : JSNumber :=
  let cs := trimWhiteSpace s.toList
  if cs.isEmpty then .fin 0 0 else strNumericLiteral cs

/-! ## JavaScript values -/

/-- A JavaScript value as a handler meets it: `undefined`, or a value that
`express.json()` parsed from the request body or that the model returned.
An object is its list of own properties in insertion order. -/
inductive JSValue where
  | undefined
  | null
  | bool (b : Bool)
  | num (n : JSNumber)
  | str (s : String)
  | arr (items : List JSValue)
  | obj (fields : List (String × JSValue))

/-- What a `try` block can throw: a `TypeError` raised by the language, or an
error `e` thrown by a call on the model. -/
inductive Thrown (ε : Type) where
  | typeError
  | model (e : ε)

namespace JSValue

/-- Own-property lookup in a property list. -/
def lookup (key : String) : List (String × JSValue) → JSValue
  | [] => undefined
  | (k, v) :: rest => if k = key then v else lookup key rest

/-- Assignment to a property in a property list: an existing property keeps
its place and takes the value, a new one goes last. -/
def assign (key : String) (val : JSValue) : List (String × JSValue) → List (String × JSValue)
  | [] => [(key, val)]
  | (k, v) :: rest => if k = key then (k, val) :: rest else (k, v) :: assign key val rest

/-- Own-property test in a property list. -/
def hasOwn (key : String) : List (String × JSValue) → Bool
  | [] => false
  | (k, _) :: rest => k = key || hasOwn key rest

/-- The member access `v.key`, for a key that no prototype defines (`id`):
a `TypeError` on `undefined` and `null`, the own property of an object,
`undefined` on everything else. -/
def getProp {ε : Type} (v : JSValue) (key : String) : Except (Thrown ε) JSValue :=
  match v with
  | undefined => .error .typeError
  | null => .error .typeError
  | obj fields => .ok (lookup key fields)
  | _ => .ok undefined

/-- The assignment `v.key = val` on an object. The handlers assign only after
reading a truthy `v.key`, which only an object provides. -/
def setProp (v : JSValue) (key : String) (val : JSValue) : JSValue :=
  match v with
  | obj fields => obj (assign key val fields)
  | other => other

/-- ToBoolean. -/
def truthy : JSValue → Bool
  | undefined => false
  | null => false
  | bool b => b
  | num n => n.truthy
  | str s => !s.isEmpty
  | arr _ => true
  | obj _ => true

mutual
/-- Whether ToString throws on the value. A parsed object has no callable
property, so OrdinaryToPrimitive ends in a `TypeError` exactly when an own
`toString` hides `Object.prototype.toString`; an array converts its items in
turn. -/
def throwsOnToString : JSValue → Bool
  | arr items => anyThrowsOnToString items
  | obj fields => hasOwn "toString" fields
  | _ => false
/-- Whether ToString throws on one of the items. -/
def anyThrowsOnToString : List JSValue → Bool
  | [] => false
  | v :: vs => throwsOnToString v || anyThrowsOnToString vs
end

mutual
/-- StringToNumber of the text that `Array.prototype.join` writes for one
item: nothing for `undefined` and `null`, `true`/`false` and
`[object Object]` (not numeric), the digits of a number (which read back as
that number), the string itself, the join of a nested array. -/
def numberOfItem : JSValue → JSNumber
  | undefined => .fin 0 0
  | null => .fin 0 0
  | bool _ => .nan
  | num n => n
  | str s => stringToNumber s
  | arr items => numberOfJoin items
  | obj _ => .nan
/-- StringToNumber of `items.join(",")`: the empty string for no item, the
item's text for one item, a text with a comma (not numeric) for more. -/
def numberOfJoin : List JSValue → JSNumber
  | [] => .fin 0 0
  | v :: [] => numberOfItem v
  | _ :: _ :: _ => .nan
end

/-- A call `Number(v)`, that is ToNumber: objects and arrays go through
ToPrimitive, hence through their `toString`. -/
def toNumber {ε : Type} : JSValue → Except (Thrown ε) JSNumber
  | undefined => .ok .nan
  | null => .ok (.fin 0 0)
  | bool b => .ok (if b then .fin 1 0 else .fin 0 0)
  | num n => .ok n
  | str s => .ok (stringToNumber s)
  | arr items => if anyThrowsOnToString items then .error .typeError else .ok (numberOfJoin items)
  | obj fields => if hasOwn "toString" fields then .error .typeError else .ok .nan

end JSValue

/-! ## Responses, the model, outcomes -/

/-- The payload of a response: the text given to `res.send`, the value given
to `res.json` (as handed over, before serialisation), or none. -/
inductive Body where
  | text (s : String)
  | json (v : JSValue)
  | empty

/-- One response written to `res`. -/
structure Response where
  status : Nat
  body : Body

/-- A call on the Mongoose model `Product`, with its arguments. -/
inductive ModelCall where
  | find
  | findOne (filter : JSValue)
  | findOneAndUpdate (filter update options : JSValue)
  | findOneAndDelete (filter : JSValue)
  | construct (data : JSValue)
  | save (doc : JSValue)

/-- The model `Product` of `../models/product.model`, which the routes
require: each operation either resolves with a value or throws an `ε`.
`construct` is `new Product(data)`; `save d` is `await d.save()` and resolves
with the document as it stands afterwards. -/
structure ProductModel (ε : Type) where
  find : Except ε JSValue
  findOne : JSValue → Except ε JSValue
  findOneAndUpdate : JSValue → JSValue → JSValue → Except ε JSValue
  findOneAndDelete : JSValue → Except ε JSValue
  construct : JSValue → Except ε JSValue
  save : JSValue → Except ε JSValue

/-- What running a handler did: the responses sent, the calls made on the
model in order, and what the `catch` block caught. -/
structure Outcome (ε : Type) where
  sent : List Response
  calls : List ModelCall
  caught : Option (Thrown ε)

/-- The statuses of the responses sent. -/
def Outcome.statuses {ε : Type} (o : Outcome ε) : List Nat :=
  o.sent.map Response.status

/-! ## The handlers -/

/-- The filter `{ id: id }`. -/
def idFilter (id : JSNumber) : JSValue :=
  .obj [("id", .num id)]

/-- The options `{ new: true, runValidators: true }`. -/
def updateOptions : JSValue :=
  .obj [("new", .bool true), ("runValidators", .bool true)]

/-- The statement `if (req.body.id) req.body.id = Number(req.body.id);` of the
POST, PUT and PATCH handlers ("Ensure numeric id if provided"): the body
afterwards, or what the statement threw. -/
def ensureNumericId {ε : Type} (body : JSValue) : Except (Thrown ε) JSValue :=
  match body.getProp "id" with
  | .error t => .error t
  | .ok id =>
    if id.truthy then
      match id.toNumber with
      | .error t => .error t
      | .ok n => .ok (body.setProp "id" (.num n))
    else .ok body

/-- The handler `router.get('/')`: retrieve all products. -/
def getProducts {ε : Type} (Product : ProductModel ε) : Outcome ε :=
  match Product.find with
  | .error e => ⟨[⟨500, .text "Error retrieving products"⟩], [.find], some (.model e)⟩
  | .ok products => ⟨[⟨200, .json products⟩], [.find], none⟩

/-- The handler `router.get('/:id')`: retrieve a single product by numeric ID. -/
def getProductById {ε : Type} (Product : ProductModel ε) (paramsId : String) : Outcome ε :=
  let id := stringToNumber paramsId
  if id.isNaN then ⟨[⟨400, .text "Invalid product ID"⟩], [], none⟩
  else
    match Product.findOne (idFilter id) with
    | .error e =>
      ⟨[⟨500, .text "Error retrieving product"⟩], [.findOne (idFilter id)], some (.model e)⟩
    | .ok prod =>
      if !prod.truthy then ⟨[⟨404, .text "Product not found"⟩], [.findOne (idFilter id)], none⟩
      else ⟨[⟨200, .json prod⟩], [.findOne (idFilter id)], none⟩

/-- The handler `router.post('/')`: create a new product. -/
def postProduct {ε : Type} (Product : ProductModel ε) (body : JSValue) : Outcome ε :=
  match ensureNumericId body with
  | .error t => ⟨[⟨400, .text "Error creating product"⟩], [], some t⟩
  | .ok data =>
    match Product.construct data with
    | .error e =>
      ⟨[⟨400, .text "Error creating product"⟩], [.construct data], some (.model e)⟩
    | .ok newProd =>
      match Product.save newProd with
      | .error e =>
        ⟨[⟨400, .text "Error creating product"⟩], [.construct data, .save newProd],
          some (.model e)⟩
      | .ok saved => ⟨[⟨201, .json saved⟩], [.construct data, .save newProd], none⟩

/-- The handler `router.put('/:id')`: replace an existing product by numeric ID. -/
def putProduct {ε : Type} (Product : ProductModel ε) (paramsId : String) (body : JSValue) :
    Outcome ε :=
  let id := stringToNumber paramsId
  if id.isNaN then ⟨[⟨400, .text "Invalid product ID"⟩], [], none⟩
  else
    match ensureNumericId body with
    | .error t => ⟨[⟨400, .text "Error updating product"⟩], [], some t⟩
    | .ok update =>
      match Product.findOneAndUpdate (idFilter id) update updateOptions with
      | .error e =>
        ⟨[⟨400, .text "Error updating product"⟩],
          [.findOneAndUpdate (idFilter id) update updateOptions], some (.model e)⟩
      | .ok updated =>
        if !updated.truthy then
          ⟨[⟨404, .text "Product not found"⟩],
            [.findOneAndUpdate (idFilter id) update updateOptions], none⟩
        else
          ⟨[⟨200, .json updated⟩], [.findOneAndUpdate (idFilter id) update updateOptions], none⟩

/-- The handler `router.patch('/:id')`: modify some fields of a product. -/
def patchProduct {ε : Type} (Product : ProductModel ε) (paramsId : String) (body : JSValue) :
    Outcome ε :=
  let id := stringToNumber paramsId
  if id.isNaN then ⟨[⟨400, .text "Invalid product ID"⟩], [], none⟩
  else
    match ensureNumericId body with
    | .error t => ⟨[⟨400, .text "Error modifying product"⟩], [], some t⟩
    | .ok fields =>
      match Product.findOneAndUpdate (idFilter id) (.obj [("$set", fields)]) updateOptions with
      | .error e =>
        ⟨[⟨400, .text "Error modifying product"⟩],
          [.findOneAndUpdate (idFilter id) (.obj [("$set", fields)]) updateOptions],
          some (.model e)⟩
      | .ok updated =>
        if !updated.truthy then
          ⟨[⟨404, .text "Product not found"⟩],
            [.findOneAndUpdate (idFilter id) (.obj [("$set", fields)]) updateOptions], none⟩
        else
          ⟨[⟨200, .json updated⟩],
            [.findOneAndUpdate (idFilter id) (.obj [("$set", fields)]) updateOptions], none⟩

/-- The handler `router.delete('/:id')`: delete a product by numeric ID.
`res.sendStatus(204)` sends status 204, for which Express writes no body. -/
def deleteProduct {ε : Type} (Product : ProductModel ε) (paramsId : String) : Outcome ε :=
  let id := stringToNumber paramsId
  if id.isNaN then ⟨[⟨400, .text "Invalid product ID"⟩], [], none⟩
  else
    match Product.findOneAndDelete (idFilter id) with
    | .error e =>
      ⟨[⟨400, .text "Error deleting product"⟩], [.findOneAndDelete (idFilter id)],
        some (.model e)⟩
    | .ok deleted =>
      if !deleted.truthy then
        ⟨[⟨404, .text "Product not found"⟩], [.findOneAndDelete (idFilter id)], none⟩
      else ⟨[⟨204, .empty⟩], [.findOneAndDelete (idFilter id)], none⟩

/-! ## The router -/

/-- A request that the router mounted at `/products` dispatches: the method,
`req.params.id` where the path has one, `req.body` where the handler reads it. -/
inductive Request where
  | getAll
  | getOne (paramsId : String)
  | post (body : JSValue)
  | put (paramsId : String) (body : JSValue)
  | patch (paramsId : String) (body : JSValue)
  | delete (paramsId : String)

/-- The `router` exported by `productRoutes.js`. -/
def router {ε : Type} (Product : ProductModel ε) : Request → Outcome ε
  | .getAll => getProducts Product
  | .getOne paramsId => getProductById Product paramsId
  | .post body => postProduct Product body
  | .put paramsId body => putProduct Product paramsId body
  | .patch paramsId body => patchProduct Product paramsId body
  | .delete paramsId => deleteProduct Product paramsId

namespace Request

/-- The path parameter `id` of the four id-addressed routes. -/
def paramsId? : Request → Option String
  | getOne s => some s
  | put s _ => some s
  | patch s _ => some s
  | delete s => some s
  | _ => none

/-- The body that the handler of the request reads. -/
def body? : Request → Option JSValue
  | post b => some b
  | put _ b => some b
  | patch _ b => some b
  | _ => none

/-- The read handlers are List and Get. -/
def isRead : Request → Bool
  | getAll => true
  | getOne _ => true
  | _ => false

/-- The response of the handler's `catch` block. -/
def catchResponse : Request → Response
  | getAll => ⟨500, .text "Error retrieving products"⟩
  | getOne _ => ⟨500, .text "Error retrieving product"⟩
  | post _ => ⟨400, .text "Error creating product"⟩
  | put _ _ => ⟨400, .text "Error updating product"⟩
  | patch _ _ => ⟨400, .text "Error modifying product"⟩
  | delete _ => ⟨400, .text "Error deleting product"⟩

end Request

/-- What the model answers to a recorded call. -/
def ProductModel.answer {ε : Type} (Product : ProductModel ε) : ModelCall → Except ε JSValue
  | .find => Product.find
  | .findOne filter => Product.findOne filter
  | .findOneAndUpdate filter update options => Product.findOneAndUpdate filter update options
  | .findOneAndDelete filter => Product.findOneAndDelete filter
  | .construct data => Product.construct data
  | .save doc => Product.save doc

/-! ## The mocked model of the test suite -/

/-- The four `jest.fn()` of `src/tests/productRoutes.test.js`, each with what
it was set to resolve with (`mockResolvedValue`) or to reject with. -/
structure Mocks (ε : Type) where
  find : Except ε JSValue
  findOne : Except ε JSValue
  findOneAndUpdate : Except ε JSValue
  findOneAndDelete : Except ε JSValue

/-- The own properties that `Object.assign(this, items)` copies from an array:
one per index. -/
def indexed : Nat → List JSValue → List (String × JSValue)
  | _, [] => []
  | i, v :: vs => (toString i, v) :: indexed (i + 1) vs

/-- The property list without the properties of the given name. -/
def withoutKey (key : String) : List (String × JSValue) → List (String × JSValue)
  | [] => []
  | (k, v) :: rest => if k = key then withoutKey key rest else (k, v) :: withoutKey key rest

/-- The statement `Object.assign(this, data)` on a fresh `this`, for the object
or array that `express.json()` delivers as `req.body`: every own property of
`data` is assigned to `this`, except that assigning `__proto__` goes to the
prototype setter and leaves no own property. -/
def objectAssign : JSValue → JSValue
  | .obj fields => .obj (withoutKey "__proto__" fields)
  | .arr items => .obj (indexed 0 items)
  | _ => .obj []

/-- The instance `new Prod(data)` as `res.json` writes it: after
`Object.assign(this, data)` the statement `this.save = jest.fn()...` makes
`save` a function, own, whatever `data` held under that name, and `res.json`
leaves a function out. -/
def prodInstance (data : JSValue) : JSValue :=
  match objectAssign data with
  | .obj fields => .obj (withoutKey "save" fields)
  | other => other

/-- The mock `Prod` that the test suite puts in place of the model: the
static queries are the `jest.fn()`s, `new Prod(data)` copies `data` and sets
`save`, and `save` resolves with the instance. -/
def Prod {ε : Type} (m : Mocks ε) : ProductModel ε where
  find := m.find
  findOne := fun _ => m.findOne
  findOneAndUpdate := fun _ _ _ => m.findOneAndUpdate
  findOneAndDelete := fun _ => m.findOneAndDelete
  construct := fun data => .ok (prodInstance data)
  save := fun doc => .ok doc

/-- The mocks after `mockReset()`: every call returns `undefined`. -/
def Mocks.reset : Mocks Unit :=
  ⟨.ok .undefined, .ok .undefined, .ok .undefined, .ok .undefined⟩

/-! ## The resource store of the specification -/

/-- Modelled from the spec: the Product entity of the data model (the schema
of `models/product.model`, which is not among the sources). `id` is an
integer, optional at creation; the five other fields are required: `title` a
non-empty string, `price` numeric, `description`, `category`, `image`
strings. -/
structure StoredProduct where
  id : Option Int
  title : String
  price : JSNumber
  description : String
  category : String
  image : String
deriving DecidableEq

/-- Modelled from the spec: the store-layer failures of `models/product.model`
(validation failure, duplicate `id`). -/
inductive StoreError where
  | validation
  | duplicateKey
deriving DecidableEq

/-- Modelled from the spec: the resource store behind `models/product.model`,
a collection of products. -/
abbrev Db := List StoredProduct

namespace StoredProduct

/-- Modelled from the spec: the JSON object of a stored product, as
`models/product.model` would return it. -/
def toJS (p : StoredProduct) : JSValue :=
  .obj ((match p.id with
      | some i => [("id", .num (.fin i 0))]
      | none => []) ++
    [("title", .str p.title), ("price", .num p.price), ("description", .str p.description),
      ("category", .str p.category), ("image", .str p.image)])

/-- Modelled from the spec: the type constraint on `id` in
`models/product.model`: absent, or an integer. -/
def castId : JSValue → Option (Option Int)
  | .undefined => some none
  | .num (.fin i 0) => some (some i)
  | _ => none

/-- Modelled from the spec: the constraint on `title` in
`models/product.model`: a non-empty string. -/
def castTitle : JSValue → Option String
  | .str s => if s.isEmpty then none else some s
  | _ => none

/-- Modelled from the spec: the constraint on `price` in
`models/product.model`: a number. -/
def castPrice : JSValue → Option JSNumber
  | .num n => if n.isNaN then none else some n
  | _ => none

/-- Modelled from the spec: the constraint on `description`, `category` and
`image` in `models/product.model`: a string. -/
def castString : JSValue → Option String
  | .str s => some s
  | _ => none

/-- Modelled from the spec: schema validation in `models/product.model` of a
whole product: all five required fields present and of their type, `id` an
integer when supplied. -/
def fromFields (fs : List (String × JSValue)) : Option StoredProduct :=
  match castId (JSValue.lookup "id" fs), castTitle (JSValue.lookup "title" fs),
      castPrice (JSValue.lookup "price" fs), castString (JSValue.lookup "description" fs),
      castString (JSValue.lookup "category" fs), castString (JSValue.lookup "image" fs) with
  | some i, some t, some p, some d, some c, some im => some ⟨i, t, p, d, c, im⟩
  | _, _, _, _, _, _ => none

/-- Modelled from the spec: full replace in `models/product.model`: the body
is validated as a whole product and applied to the stored one, which keeps
its `id` when the body supplies none. -/
def replaceWith (p : StoredProduct) (fs : List (String × JSValue)) : Option StoredProduct :=
  match fromFields fs with
  | some q => some { q with id := match q.id with
                                 | some i => some i
                                 | none => p.id }
  | none => none

/-- Modelled from the spec: one field of a merge update in
`models/product.model`: kept when not supplied, validated when supplied. -/
def mergeField {α : Type} (cast : JSValue → Option α) (old : α) : JSValue → Option α
  | .undefined => some old
  | v => cast v

/-- Modelled from the spec: merge update in `models/product.model`: only the
supplied fields change, each one validated. -/
def mergeWith (p : StoredProduct) (fs : List (String × JSValue)) : Option StoredProduct :=
  match mergeField castId p.id (JSValue.lookup "id" fs),
      mergeField castTitle p.title (JSValue.lookup "title" fs),
      mergeField castPrice p.price (JSValue.lookup "price" fs),
      mergeField castString p.description (JSValue.lookup "description" fs),
      mergeField castString p.category (JSValue.lookup "category" fs),
      mergeField castString p.image (JSValue.lookup "image" fs) with
  | some i, some t, some pr, some d, some c, some im => some ⟨i, t, pr, d, c, im⟩
  | _, _, _, _, _, _ => none

/-- Modelled from the spec: the update that `models/product.model` performs for
an update document: a merge of the fields under `$set` for `{ $set: fields }`
(Partial update), a full replace by the document otherwise (Replace). -/
def applyUpdate (p : StoredProduct) : JSValue → Option StoredProduct
  | .obj [("$set", .obj setFields)] => mergeWith p setFields
  | .obj fs => replaceWith p fs
  | _ => none

end StoredProduct

namespace Db

/-- Modelled from the spec: the integer that a filter `{ id: n }` selects in
`models/product.model`; a filter whose `id` is no integer matches no product. -/
def filterId : JSValue → Option Int
  | .obj fs =>
    match JSValue.lookup "id" fs with
    | .num (.fin i 0) => some i
    | _ => none
  | _ => none

/-- Modelled from the spec: find-by-id of `models/product.model`: the first
product with the `id`. -/
def findById (i : Int) : Db → Option StoredProduct
  | [] => none
  | p :: rest => if p.id = some i then some p else findById i rest

/-- Modelled from the spec: the product that a filter selects in
`models/product.model`. -/
def select (filter : JSValue) (db : Db) : Option StoredProduct :=
  match filterId filter with
  | some i => findById i db
  | none => none

/-- Modelled from the spec: whether an `id` is in use, for the uniqueness
that `models/product.model` enforces; an absent `id` collides with nothing. -/
def idTaken : Option Int → Db → Bool
  | none, _ => false
  | some i, db => (findById i db).isSome

/-- Modelled from the spec: the collection of `models/product.model` with the
first product of the `id` replaced. -/
def replaceFirst (i : Int) (q : StoredProduct) : Db → Db
  | [] => []
  | p :: rest => if p.id = some i then q :: rest else p :: replaceFirst i q rest

/-- Modelled from the spec: the collection of `models/product.model` without
the first product of the `id`. -/
def removeFirst (i : Int) : Db → Db
  | [] => []
  | p :: rest => if p.id = some i then rest else p :: removeFirst i rest

/-- Modelled from the spec: the `id`s in use in the collection of
`models/product.model`. -/
def ids (db : Db) : List Int :=
  db.filterMap (fun p => p.id)

/-- Modelled from the spec: the uniqueness of `id` across the collection of
`models/product.model`. -/
def uniqueIds (db : Db) : Prop :=
  (ids db).Nodup

/-- Modelled from the spec: the operations of `models/product.model` on the
store: list-all, find-by-id, create (validate and persist, `id` unique),
full-replace-by-id and merge-update-by-id (re-validated, returning the updated
product), delete-by-id. The result is the answer and the store afterwards. -/
def exec (db : Db) : ModelCall → Except StoreError JSValue × Db
  | .find => (.ok (.arr (db.map StoredProduct.toJS)), db)
  | .findOne filter =>
    match select filter db with
    | some p => (.ok p.toJS, db)
    | none => (.ok .null, db)
  | .construct data => (.ok data, db)
  | .save doc =>
    match doc with
    | .obj fs =>
      match StoredProduct.fromFields fs with
      | some p =>
        if idTaken p.id db then (.error .duplicateKey, db) else (.ok p.toJS, db ++ [p])
      | none => (.error .validation, db)
    | _ => (.error .validation, db)
  | .findOneAndUpdate filter update _ =>
    match select filter db with
    | some p =>
      match p.id, p.applyUpdate update with
      | some i, some q =>
        if q.id ≠ p.id && idTaken q.id db then (.error .duplicateKey, db)
        else (.ok q.toJS, replaceFirst i q db)
      | _, _ => (.error .validation, db)
    | none => (.ok .null, db)
  | .findOneAndDelete filter =>
    match select filter db with
    | some p =>
      match p.id with
      | some i => (.ok p.toJS, removeFirst i db)
      | none => (.ok p.toJS, db)
    | none => (.ok .null, db)

/-- Modelled from the spec: `models/product.model` as the routes see it when
the store holds `db`. -/
def model (db : Db) : ProductModel StoreError where
  find := (exec db .find).1
  findOne := fun filter => (exec db (.findOne filter)).1
  findOneAndUpdate := fun filter update options =>
    (exec db (.findOneAndUpdate filter update options)).1
  findOneAndDelete := fun filter => (exec db (.findOneAndDelete filter)).1
  construct := fun data => (exec db (.construct data)).1
  save := fun doc => (exec db (.save doc)).1

/-- Modelled from the spec: the store of `models/product.model` after the
calls of one request. -/
def after (db : Db) (calls : List ModelCall) : Db :=
  calls.foldl (fun d c => (exec d c).2) db

end Db

/-- One request served over the store `db`: the handler's outcome and the
store afterwards. -/
def serve (db : Db) (req : Request) : Outcome StoreError × Db :=
  let out := router (Db.model db) req
  (out, Db.after db out.calls)

/-! ## Properties of the handlers -/

section Handlers

variable {ε : Type}

/-- A parameter that `Number` turns into an integer is not `NaN`. -/
theorem isNaN_of_isInteger (n : JSNumber) (h : n.isInteger = true) : n.isNaN = false := by
  cases n <;> simp_all [JSNumber.isInteger, JSNumber.isNaN]

/-- When a call on the model throws, the handler sends the response of its
`catch` block and nothing else, and that block received the error. -/
theorem sent_of_model_error (Product : ProductModel ε) (req : Request) (c : ModelCall) (e : ε)
    (hc : c ∈ (router Product req).calls) (he : Product.answer c = .error e) :
    (router Product req).sent = [req.catchResponse] ∧
      (router Product req).caught = some (.model e) := by
  cases req with
  | getAll =>
    simp only [router, getProducts] at hc ⊢
    split at hc <;> simp_all [ProductModel.answer, Request.catchResponse]
  | getOne s =>
    simp only [router, getProductById] at hc ⊢
    split at hc
    · simp at hc
    · split at hc
      · simp_all [ProductModel.answer, Request.catchResponse]
      · split at hc <;> simp_all [ProductModel.answer]
  | post body =>
    simp only [router, postProduct] at hc ⊢
    split at hc
    · simp at hc
    · split at hc
      · simp_all [ProductModel.answer, Request.catchResponse]
      · split at hc
        · rename_i hcons _ _ hsave
          simp only [List.mem_cons, List.mem_singleton, List.not_mem_nil, or_false] at hc
          rcases hc with rfl | rfl
          · simp_all [ProductModel.answer]
          · simp_all [ProductModel.answer, Request.catchResponse]
        · rename_i hcons _ _ hsave
          simp only [List.mem_cons, List.mem_singleton, List.not_mem_nil, or_false] at hc
          rcases hc with rfl | rfl <;> simp_all [ProductModel.answer]
  | put s body =>
    simp only [router, putProduct] at hc ⊢
    split at hc
    · simp at hc
    · split at hc
      · simp at hc
      · split at hc
        · simp_all [ProductModel.answer, Request.catchResponse]
        · split at hc <;> simp_all [ProductModel.answer]
  | patch s body =>
    simp only [router, patchProduct] at hc ⊢
    split at hc
    · simp at hc
    · split at hc
      · simp at hc
      · split at hc
        · simp_all [ProductModel.answer, Request.catchResponse]
        · split at hc <;> simp_all [ProductModel.answer]
  | delete s =>
    simp only [router, deleteProduct] at hc ⊢
    split at hc
    · simp at hc
    · split at hc
      · simp_all [ProductModel.answer, Request.catchResponse]
      · split at hc <;> simp_all [ProductModel.answer]

/-- After the `NaN` guard has let the parameter through and the body's `id`
has been dealt with, a handler whose every call on the model resolves with
`null` answers 404. -/
theorem statuses_of_null_answers (Product : ProductModel ε) (req : Request) (s : String)
    (hid : req.paramsId? = some s) (hnan : (stringToNumber s).isNaN = false)
    (hbody : ∀ b, req.body? = some b → ∃ u, ensureNumericId (ε := ε) b = .ok u)
    (hnull : ∀ c ∈ (router Product req).calls, Product.answer c = .ok .null) :
    (router Product req).sent = [⟨404, .text "Product not found"⟩] := by
  cases req with
  | getAll => simp [Request.paramsId?] at hid
  | post body => simp [Request.paramsId?] at hid
  | getOne t =>
    simp only [Request.paramsId?, Option.some.injEq] at hid
    subst hid
    cases hq : Product.findOne (idFilter (stringToNumber t)) with
    | error e =>
      have h := hnull (.findOne (idFilter (stringToNumber t)))
        (by simp [router, getProductById, hnan, hq])
      simp [ProductModel.answer, hq] at h
    | ok prod =>
      have h := hnull (.findOne (idFilter (stringToNumber t)))
        (by cases ht : prod.truthy <;> simp [router, getProductById, hnan, hq, ht])
      simp only [ProductModel.answer, hq, Except.ok.injEq] at h
      subst h
      simp [router, getProductById, hnan, hq, JSValue.truthy]
  | delete t =>
    simp only [Request.paramsId?, Option.some.injEq] at hid
    subst hid
    cases hq : Product.findOneAndDelete (idFilter (stringToNumber t)) with
    | error e =>
      have h := hnull (.findOneAndDelete (idFilter (stringToNumber t)))
        (by simp [router, deleteProduct, hnan, hq])
      simp [ProductModel.answer, hq] at h
    | ok prod =>
      have h := hnull (.findOneAndDelete (idFilter (stringToNumber t)))
        (by cases ht : prod.truthy <;> simp [router, deleteProduct, hnan, hq, ht])
      simp only [ProductModel.answer, hq, Except.ok.injEq] at h
      subst h
      simp [router, deleteProduct, hnan, hq, JSValue.truthy]
  | put t body =>
    simp only [Request.paramsId?, Option.some.injEq] at hid
    subst hid
    obtain ⟨u, hu⟩ := hbody body rfl
    cases hq : Product.findOneAndUpdate (idFilter (stringToNumber t)) u updateOptions with
    | error e =>
      have h := hnull (.findOneAndUpdate (idFilter (stringToNumber t)) u updateOptions)
        (by simp [router, putProduct, hnan, hu, hq])
      simp [ProductModel.answer, hq] at h
    | ok prod =>
      have h := hnull (.findOneAndUpdate (idFilter (stringToNumber t)) u updateOptions)
        (by cases ht : prod.truthy <;> simp [router, putProduct, hnan, hu, hq, ht])
      simp only [ProductModel.answer, hq, Except.ok.injEq] at h
      subst h
      simp [router, putProduct, hnan, hu, hq, JSValue.truthy]
  | patch t body =>
    simp only [Request.paramsId?, Option.some.injEq] at hid
    subst hid
    obtain ⟨u, hu⟩ := hbody body rfl
    cases hq : Product.findOneAndUpdate (idFilter (stringToNumber t)) (.obj [("$set", u)])
        updateOptions with
    | error e =>
      have h := hnull (.findOneAndUpdate (idFilter (stringToNumber t)) (.obj [("$set", u)])
        updateOptions) (by simp [router, patchProduct, hnan, hu, hq])
      simp [ProductModel.answer, hq] at h
    | ok prod =>
      have h := hnull (.findOneAndUpdate (idFilter (stringToNumber t)) (.obj [("$set", u)])
        updateOptions) (by cases ht : prod.truthy <;> simp [router, patchProduct, hnan, hu, hq, ht])
      simp only [ProductModel.answer, hq, Except.ok.injEq] at h
      subst h
      simp [router, patchProduct, hnan, hu, hq, JSValue.truthy]

/-- A handler whose path `id` passed the `NaN` guard and whose body statement
did not throw makes at least one call on the model. -/
theorem calls_ne_nil (Product : ProductModel ε) (req : Request) (s : String)
    (hid : req.paramsId? = some s) (hnan : (stringToNumber s).isNaN = false)
    (hbody : ∀ b, req.body? = some b → ∃ u, ensureNumericId (ε := ε) b = .ok u) :
    (router Product req).calls ≠ [] := by
  cases req with
  | getAll => simp [Request.paramsId?] at hid
  | post body => simp [Request.paramsId?] at hid
  | getOne t =>
    simp only [Request.paramsId?, Option.some.injEq] at hid
    subst hid
    simp only [router, getProductById, hnan]
    cases Product.findOne (idFilter (stringToNumber t)) with
    | error e => simp
    | ok prod => cases ht : prod.truthy <;> simp [ht]
  | delete t =>
    simp only [Request.paramsId?, Option.some.injEq] at hid
    subst hid
    simp only [router, deleteProduct, hnan]
    cases Product.findOneAndDelete (idFilter (stringToNumber t)) with
    | error e => simp
    | ok prod => cases ht : prod.truthy <;> simp [ht]
  | put t body =>
    simp only [Request.paramsId?, Option.some.injEq] at hid
    subst hid
    obtain ⟨u, hu⟩ := hbody body rfl
    simp only [router, putProduct, hnan, hu]
    cases Product.findOneAndUpdate (idFilter (stringToNumber t)) u updateOptions with
    | error e => simp
    | ok prod => cases ht : prod.truthy <;> simp [ht]
  | patch t body =>
    simp only [Request.paramsId?, Option.some.injEq] at hid
    subst hid
    obtain ⟨u, hu⟩ := hbody body rfl
    simp only [router, patchProduct, hnan, hu]
    cases Product.findOneAndUpdate (idFilter (stringToNumber t)) (.obj [("$set", u)])
        updateOptions with
    | error e => simp
    | ok prod => cases ht : prod.truthy <;> simp [ht]

/-- C1 (as amended): for every request whose path `id` is not numeric
(`Number(req.params.id)` is `NaN`), each of the four id-addressed handlers
sends exactly `400 Invalid product ID` and makes no call on the model. -/
theorem nan_id_rejected_before_store (Product : ProductModel ε) (req : Request) (s : String)
    (hid : req.paramsId? = some s) (hnan : (stringToNumber s).isNaN = true) :
    (router Product req).sent = [⟨400, .text "Invalid product ID"⟩] ∧
      (router Product req).calls = [] := by
  cases req <;> simp [Request.paramsId?] at hid <;> subst hid <;>
    simp [router, getProductById, putProduct, patchProduct, deleteProduct, hnan]

/-- C1, witness: `GET /products/abc`, the scenario of the specification. -/
theorem nan_id_rejected_before_store_witness :
    (router (Prod Mocks.reset) (.getOne "abc")).sent = [⟨400, .text "Invalid product ID"⟩] ∧
      (router (Prod Mocks.reset) (.getOne "abc")).calls = [] :=
  nan_id_rejected_before_store (Prod Mocks.reset) (.getOne "abc") "abc" rfl (by decide)

/-- C1, counterexample: the path `id` `1.5` is no integer, yet each of the four
id-addressed handlers queries the model with it (which finds nothing here)
and answers 404 instead of 400. -/
theorem fractional_id_reaches_store :
    (stringToNumber "1.5").isInteger = false ∧
      (router (Prod Mocks.reset) (.getOne "1.5")).calls
        = [.findOne (idFilter (.fin 3 1))] ∧
      (router (Prod Mocks.reset) (.getOne "1.5")).statuses = [404] ∧
      (router (Prod Mocks.reset) (.put "1.5" (.obj []))).calls
        = [.findOneAndUpdate (idFilter (.fin 3 1)) (.obj []) updateOptions] ∧
      (router (Prod Mocks.reset) (.put "1.5" (.obj []))).statuses = [404] ∧
      (router (Prod Mocks.reset) (.patch "1.5" (.obj []))).calls
        = [.findOneAndUpdate (idFilter (.fin 3 1)) (.obj [("$set", .obj [])]) updateOptions] ∧
      (router (Prod Mocks.reset) (.patch "1.5" (.obj []))).statuses = [404] ∧
      (router (Prod Mocks.reset) (.delete "1.5")).calls
        = [.findOneAndDelete (idFilter (.fin 3 1))] ∧
      (router (Prod Mocks.reset) (.delete "1.5")).statuses = [404] :=
  ⟨by decide, rfl, by decide, rfl, by decide, rfl, by decide, rfl, by decide⟩

/-- C2 (as amended): for every path `id` that is a valid integer, when the
query on the model resolves with `null`, each of GET, PUT, PATCH and DELETE
`/:id` answers 404, for every request body on which the statement
`if (req.body.id) req.body.id = Number(req.body.id)` does not throw; and the
model is indeed queried. -/
theorem absent_product_not_found (Product : ProductModel ε) (req : Request) (s : String)
    (hid : req.paramsId? = some s) (hint : (stringToNumber s).isInteger = true)
    (hbody : ∀ b, req.body? = some b → ∃ u, ensureNumericId (ε := ε) b = .ok u)
    (hnull : ∀ c ∈ (router Product req).calls, Product.answer c = .ok .null) :
    (router Product req).statuses = [404] ∧ (router Product req).calls ≠ [] := by
  have h := statuses_of_null_answers Product req s hid (isNaN_of_isInteger _ hint) hbody hnull
  exact ⟨by simp [Outcome.statuses, h],
    calls_ne_nil Product req s hid (isNaN_of_isInteger _ hint) hbody⟩

/-- C2, witness: `GET /products/999` on a model that finds nothing, the
scenario of the specification. -/
theorem absent_product_not_found_witness :
    (router (Prod (ε := Unit) ⟨.ok (.arr []), .ok .null, .ok .null, .ok .null⟩)
      (.getOne "999")).statuses = [404] ∧
    (router (Prod (ε := Unit) ⟨.ok (.arr []), .ok .null, .ok .null, .ok .null⟩)
      (.getOne "999")).calls ≠ [] :=
  absent_product_not_found _ (.getOne "999") "999" rfl (by decide)
    (by intro b hb; simp [Request.body?] at hb)
    (by
      intro c hc
      have : c = .findOne (idFilter (.fin 999 0)) := by
        have h : (router (Prod (ε := Unit) ⟨.ok (.arr []), .ok .null, .ok .null, .ok .null⟩)
            (.getOne "999")).calls = [.findOne (idFilter (.fin 999 0))] := rfl
        rw [h] at hc
        simpa using hc
      subst this
      rfl)

/-- C2, counterexample: `PUT /products/5` and `PATCH /products/5` on a model
that finds nothing, with the body `{"id": {"toString": 1}}`: `Number` throws a
`TypeError` on that `id`, the `catch` block answers 400 and the model is never
queried. -/
theorem unconvertible_body_id_answers_400 :
    (stringToNumber "5").isInteger = true ∧
      (router (Prod (ε := Unit) ⟨.ok (.arr []), .ok .null, .ok .null, .ok .null⟩)
        (.put "5" (.obj [("id", .obj [("toString", .num (.fin 1 0))])]))).statuses = [400] ∧
      (router (Prod (ε := Unit) ⟨.ok (.arr []), .ok .null, .ok .null, .ok .null⟩)
        (.put "5" (.obj [("id", .obj [("toString", .num (.fin 1 0))])]))).calls = [] ∧
      (router (Prod (ε := Unit) ⟨.ok (.arr []), .ok .null, .ok .null, .ok .null⟩)
        (.patch "5" (.obj [("id", .obj [("toString", .num (.fin 1 0))])]))).statuses = [400] :=
  ⟨by decide, by decide, rfl, by decide⟩

/-- C3: for every request and every error that a call on the model throws, the
handler catches it and sends exactly one response, of status 500 in the read
handlers (List, Get) and 400 in the write handlers (Create, Replace, Partial
update, Delete). -/
theorem store_errors_caught (Product : ProductModel ε) (req : Request) (c : ModelCall) (e : ε)
    (hc : c ∈ (router Product req).calls) (he : Product.answer c = .error e) :
    (router Product req).caught = some (.model e) ∧
      (∃ r, (router Product req).sent = [r]) ∧
      (router Product req).statuses = [if req.isRead then 500 else 400] := by
  obtain ⟨hsent, hcaught⟩ := sent_of_model_error Product req c e hc he
  refine ⟨hcaught, ⟨_, hsent⟩, ?_⟩
  cases req <;> simp [Outcome.statuses, hsent, Request.catchResponse, Request.isRead]

/-- C3, witness: `GET /products` when `find` rejects. -/
theorem store_errors_caught_witness :
    (router (Prod ⟨.error "down", .ok .null, .ok .null, .ok .null⟩) .getAll).caught
        = some (.model "down") ∧
      (∃ r, (router (Prod ⟨.error "down", .ok .null, .ok .null, .ok .null⟩) .getAll).sent = [r]) ∧
      (router (Prod ⟨.error "down", .ok .null, .ok .null, .ok .null⟩) .getAll).statuses = [500] :=
  store_errors_caught (Prod ⟨.error "down", .ok .null, .ok .null, .ok .null⟩) .getAll .find "down"
    (by simp [router, getProducts, Prod]) rfl

/-- C4: the read handlers return the result of the model unchanged: whatever
array `find` resolves with, `GET /` answers 200 with that array; and for every
path `id` that parses and every product that `findOne` resolves with,
`GET /:id` answers 200 with that product, having queried the model once, with
the filter `{ id: Number(req.params.id) }`. -/
theorem read_handlers_return_store_result (Product : ProductModel ε) :
    (∀ products, Product.find = .ok products →
      (router Product .getAll).sent = [⟨200, .json products⟩]) ∧
    (∀ s fields, (stringToNumber s).isNaN = false →
      Product.findOne (idFilter (stringToNumber s)) = .ok (.obj fields) →
      (router Product (.getOne s)).sent = [⟨200, .json (.obj fields)⟩] ∧
        (router Product (.getOne s)).calls = [.findOne (idFilter (stringToNumber s))]) := by
  constructor
  · intro products h
    simp [router, getProducts, h]
  · intro s fields hnan h
    simp [router, getProductById, hnan, h, JSValue.truthy]

/-- C4, witness: the two read tests of the suite, and the empty array. -/
theorem read_handlers_return_store_result_witness :
    (router (Prod (ε := Unit) ⟨.ok (.arr []), .ok (.obj [("id", .num (.fin 1 0))]), .ok .null,
        .ok .null⟩) .getAll).sent = [⟨200, .json (.arr [])⟩] ∧
      (router (Prod (ε := Unit) ⟨.ok (.arr []), .ok (.obj [("id", .num (.fin 1 0))]), .ok .null,
        .ok .null⟩) (.getOne "1")).sent = [⟨200, .json (.obj [("id", .num (.fin 1 0))])⟩] :=
  ⟨(read_handlers_return_store_result _).1 _ rfl,
    ((read_handlers_return_store_result _).2 "1" _ (by decide) rfl).1⟩

/-- C6: for every path `id` that parses and for which `findOneAndDelete`
resolves with the deleted product, `DELETE /:id` answers 204 with an empty
body. -/
theorem delete_existing_no_content (Product : ProductModel ε) (s : String)
    (fields : List (String × JSValue)) (hnan : (stringToNumber s).isNaN = false)
    (hdel : Product.findOneAndDelete (idFilter (stringToNumber s)) = .ok (.obj fields)) :
    (router Product (.delete s)).sent = [⟨204, .empty⟩] := by
  simp [router, deleteProduct, hnan, hdel, JSValue.truthy]

/-- C6, witness: the delete test of the suite. -/
theorem delete_existing_no_content_witness :
    (router (Prod (ε := Unit) ⟨.ok .undefined, .ok .undefined, .ok .undefined,
      .ok (.obj [("id", .num (.fin 3 0))])⟩) (.delete "3")).sent = [⟨204, .empty⟩] :=
  delete_existing_no_content _ "3" [("id", .num (.fin 3 0))] (by decide) rfl

/-- C8: no handler puts the thrown error in its response: for every request,
two runs in which a call on the model throws, whatever the two errors, send
the same response, the fixed message of the handler's `catch` block. -/
theorem failure_response_independent_of_error (P₁ P₂ : ProductModel ε) (req : Request)
    (c₁ c₂ : ModelCall) (e₁ e₂ : ε)
    (hc₁ : c₁ ∈ (router P₁ req).calls) (he₁ : P₁.answer c₁ = .error e₁)
    (hc₂ : c₂ ∈ (router P₂ req).calls) (he₂ : P₂.answer c₂ = .error e₂) :
    (router P₁ req).sent = (router P₂ req).sent ∧
      (router P₁ req).sent = [req.catchResponse] := by
  have h₁ := (sent_of_model_error P₁ req c₁ e₁ hc₁ he₁).1
  have h₂ := (sent_of_model_error P₂ req c₂ e₂ hc₂ he₂).1
  exact ⟨h₁.trans h₂.symm, h₁⟩

/-- C8, witness: `DELETE /products/3` when the model rejects with one message
and with another. -/
theorem failure_response_independent_of_error_witness :
    (router (Prod ⟨.ok .null, .ok .null, .ok .null, .error "E11000 duplicate key"⟩)
        (.delete "3")).sent
      = (router (Prod ⟨.ok .null, .ok .null, .ok .null, .error "ECONNRESET"⟩) (.delete "3")).sent ∧
    (router (Prod ⟨.ok .null, .ok .null, .ok .null, .error "E11000 duplicate key"⟩)
        (.delete "3")).sent = [⟨400, .text "Error deleting product"⟩] :=
  failure_response_independent_of_error
    (Prod ⟨.ok .null, .ok .null, .ok .null, .error "E11000 duplicate key"⟩)
    (Prod ⟨.ok .null, .ok .null, .ok .null, .error "ECONNRESET"⟩) (.delete "3")
    (.findOneAndDelete (idFilter (.fin 3 0))) (.findOneAndDelete (idFilter (.fin 3 0)))
    "E11000 duplicate key" "ECONNRESET"
    (by rw [show (router (Prod ⟨.ok .null, .ok .null, .ok .null, .error "E11000 duplicate key"⟩)
        (.delete "3")).calls = [.findOneAndDelete (idFilter (.fin 3 0))] from rfl]
        exact List.mem_singleton.mpr rfl)
    rfl
    (by rw [show (router (Prod ⟨.ok .null, .ok .null, .ok .null, .error "ECONNRESET"⟩)
        (.delete "3")).calls = [.findOneAndDelete (idFilter (.fin 3 0))] from rfl]
        exact List.mem_singleton.mpr rfl)
    rfl

/-! ## The body's `id` -/

/-- Reading a property of another name after a removal. -/
theorem lookup_withoutKey (key k : String) (fs : List (String × JSValue)) (h : k ≠ key) :
    JSValue.lookup k (withoutKey key fs) = JSValue.lookup k fs := by
  induction fs with
  | nil => rfl
  | cons kv rest ih =>
    obtain ⟨k', v'⟩ := kv
    by_cases hk : k' = key
    · have hk' : ¬ k' = k := fun e => h (e.symm.trans hk)
      simp only [withoutKey, JSValue.lookup, hk, if_true]
      rw [ih, ← hk, if_neg hk']
    · by_cases hk' : k' = k
      · subst hk'
        simp only [withoutKey, JSValue.lookup, if_neg hk, if_true]
      · simp only [withoutKey, JSValue.lookup, hk, hk', if_false, ih]

/-- Reading a property after an assignment. -/
theorem lookup_assign (key k : String) (val : JSValue) (fs : List (String × JSValue)) :
    JSValue.lookup k (JSValue.assign key val fs)
      = if k = key then val else JSValue.lookup k fs := by
  induction fs with
  | nil =>
    by_cases h : k = key
    · simp [JSValue.assign, JSValue.lookup, h]
    · have h' : ¬ key = k := fun e => h e.symm
      simp [JSValue.assign, JSValue.lookup, h, h']
  | cons kv rest ih =>
    obtain ⟨k', v'⟩ := kv
    by_cases hk : k' = key
    · by_cases h : k = key
      · simp [JSValue.assign, JSValue.lookup, hk, h]
      · have h' : ¬ key = k := fun e => h e.symm
        simp [JSValue.assign, JSValue.lookup, hk, h, h']
    · by_cases h' : k' = k
      · have h : ¬ k = key := fun e => hk (h'.trans e)
        simp [JSValue.assign, JSValue.lookup, hk, h, h']
      · simp [JSValue.assign, JSValue.lookup, hk, h', ih]

/-- Only an object has a truthy `id`. -/
theorem obj_of_truthy_prop (body idv : JSValue) (key : String)
    (hget : body.getProp (ε := ε) key = .ok idv) (htruthy : idv.truthy = true) :
    ∃ fs, body = .obj fs ∧ JSValue.lookup key fs = idv := by
  cases body <;> simp [JSValue.getProp] at hget <;> first
    | exact ⟨_, rfl, hget⟩
    | (subst hget; simp [JSValue.truthy] at htruthy)

/-- What the statement leaves of a body whose `id` is truthy and converts. -/
theorem ensureNumericId_truthy (body idv : JSValue) (n : JSNumber)
    (hget : body.getProp (ε := ε) "id" = .ok idv) (htruthy : idv.truthy = true)
    (hnum : idv.toNumber (ε := ε) = .ok n) :
    ensureNumericId (ε := ε) body = .ok (body.setProp "id" (.num n)) := by
  simp [ensureNumericId, hget, htruthy, hnum]

/-- C7 (as amended): for Create, Replace and Partial update, whenever the
request body has a truthy `id` on which `Number` does not throw, the `id` of
the payload handed to the model (the data of the constructed product, the
update document, the document under `$set`) is the Number `Number(id)`. -/
theorem truthy_body_id_coerced (Product : ProductModel ε) (s : String) (body idv : JSValue)
    (n : JSNumber) (hget : body.getProp (ε := ε) "id" = .ok idv) (htruthy : idv.truthy = true)
    (hnum : idv.toNumber (ε := ε) = .ok n) (hnan : (stringToNumber s).isNaN = false) :
    ∃ data, data.getProp (ε := ε) "id" = .ok (.num n) ∧
      (router Product (.post body)).calls.head? = some (.construct data) ∧
      (router Product (.put s body)).calls
        = [.findOneAndUpdate (idFilter (stringToNumber s)) data updateOptions] ∧
      (router Product (.patch s body)).calls
        = [.findOneAndUpdate (idFilter (stringToNumber s)) (.obj [("$set", data)])
            updateOptions] := by
  have hdata := ensureNumericId_truthy body idv n hget htruthy hnum
  obtain ⟨fs, rfl, -⟩ := obj_of_truthy_prop body idv "id" hget htruthy
  refine ⟨(JSValue.obj fs).setProp "id" (.num n), ?_, ?_, ?_, ?_⟩
  · simp [JSValue.setProp, JSValue.getProp, lookup_assign]
  · simp only [router, postProduct, hdata]
    cases hc : Product.construct ((JSValue.obj fs).setProp "id" (.num n)) with
    | error e => simp
    | ok newProd => cases hs : Product.save newProd <;> simp [hs]
  · simp only [router, putProduct, hnan, hdata]
    cases hu : Product.findOneAndUpdate (idFilter (stringToNumber s))
        ((JSValue.obj fs).setProp "id" (.num n)) updateOptions with
    | error e => simp
    | ok updated => cases ht : updated.truthy <;> simp [ht]
  · simp only [router, patchProduct, hnan, hdata]
    cases hu : Product.findOneAndUpdate (idFilter (stringToNumber s))
        (.obj [("$set", (JSValue.obj fs).setProp "id" (.num n))]) updateOptions with
    | error e => simp
    | ok updated => cases ht : updated.truthy <;> simp [ht]

/-- C7, witness: the body `{"id": "7", "title": "x"}` sent to `/products` and
`/products/1`. -/
theorem truthy_body_id_coerced_witness :
    ∃ data, data.getProp (ε := Unit) "id" = .ok (.num (.fin 7 0)) ∧
      (router (Prod Mocks.reset)
        (.post (.obj [("id", .str "7"), ("title", .str "x")]))).calls.head?
        = some (.construct data) ∧
      (router (Prod Mocks.reset) (.put "1" (.obj [("id", .str "7"), ("title", .str "x")]))).calls
        = [.findOneAndUpdate (idFilter (stringToNumber "1")) data updateOptions] ∧
      (router (Prod Mocks.reset) (.patch "1" (.obj [("id", .str "7"), ("title", .str "x")]))).calls
        = [.findOneAndUpdate (idFilter (stringToNumber "1")) (.obj [("$set", data)])
            updateOptions] :=
  truthy_body_id_coerced (Prod Mocks.reset) "1" (.obj [("id", .str "7"), ("title", .str "x")])
    (.str "7") (.fin 7 0) rfl (by decide) rfl (by decide)

/-- C7, counterexample: the `id` that reaches the model is no integer for the
bodies `{"id": "1.5"}` (it is 1.5) and `{"id": "abc"}` (it is `NaN`), and for
`{"id": ""}` it is the string itself, which the truthiness guard leaves
unconverted. -/
theorem body_id_reaches_store_not_integer :
    (router (Prod Mocks.reset) (.post (.obj [("id", .str "1.5")]))).calls.head?
        = some (.construct (.obj [("id", .num (.fin 3 1))])) ∧
      (JSNumber.fin 3 1).isInteger = false ∧
      (router (Prod Mocks.reset) (.put "1" (.obj [("id", .str "abc")]))).calls
        = [.findOneAndUpdate (idFilter (.fin 1 0)) (.obj [("id", .num .nan)]) updateOptions] ∧
      JSNumber.nan.isInteger = false ∧
      (router (Prod Mocks.reset) (.patch "1" (.obj [("id", .str "")]))).calls
        = [.findOneAndUpdate (idFilter (.fin 1 0)) (.obj [("$set", .obj [("id", .str "")])])
            updateOptions] :=
  ⟨rfl, rfl, rfl, rfl, rfl⟩

/-- C5 (as amended): for every JSON body on which the `id` statement does not
throw, with `data` the body it leaves: when the model's create succeeds,
`POST /` answers 201 with the created product as JSON body, which the model
built from `data`; `data` holds every submitted field other than `id` as
submitted and, when the submitted `id` is truthy, the `id` `Number(id)`; with
the mock of the test suite the JSON body holds the fields of `data`, each as
in `data`, but for a field named `save` or `__proto__`, which the mock does not
keep; and when a call of the create throws, the answer is 400. -/
theorem post_creates_from_body (Product : ProductModel ε) (body data : JSValue)
    (hdata : ensureNumericId (ε := ε) body = .ok data) :
    (∀ doc saved, Product.construct data = .ok doc → Product.save doc = .ok saved →
        (router Product (.post body)).sent = [⟨201, .json saved⟩] ∧
        (router Product (.post body)).calls = [.construct data, .save doc]) ∧
      (∀ key, key ≠ "id" → data.getProp (ε := ε) key = body.getProp key) ∧
      (∀ idv, body.getProp (ε := ε) "id" = .ok idv → idv.truthy = true →
        ∃ n, idv.toNumber (ε := ε) = .ok n ∧ data.getProp (ε := ε) "id" = .ok (.num n)) ∧
      (∀ (m : Mocks ε) fs, body = .obj fs →
        (router (Prod m) (.post body)).sent = [⟨201, .json (prodInstance data)⟩] ∧
        ∃ fields, data = .obj fields ∧
          prodInstance data = .obj (withoutKey "save" (withoutKey "__proto__" fields)) ∧
          ∀ key, key ≠ "__proto__" → key ≠ "save" →
            JSValue.lookup key (withoutKey "save" (withoutKey "__proto__" fields))
              = JSValue.lookup key fields) ∧
      (∀ c e, c ∈ (router Product (.post body)).calls → Product.answer c = .error e →
        (router Product (.post body)).statuses = [400]) := by
  refine ⟨?_, ?_, ?_, ?_, ?_⟩
  · intro doc saved hc hs
    simp [router, postProduct, hdata, hc, hs]
  · intro key hkey
    simp only [ensureNumericId] at hdata
    cases hget : body.getProp (ε := ε) "id" with
    | error t => simp [hget] at hdata
    | ok idv =>
      simp only [hget] at hdata
      cases ht : idv.truthy with
      | false =>
        simp [ht] at hdata
        rw [hdata]
      | true =>
        obtain ⟨fs, rfl, -⟩ := obj_of_truthy_prop body idv "id" hget ht
        cases hn : idv.toNumber (ε := ε) with
        | error t => simp [ht, hn] at hdata
        | ok n =>
          simp [ht, hn] at hdata
          subst hdata
          simp [JSValue.setProp, JSValue.getProp, lookup_assign, hkey]
  · intro idv hget ht
    cases hn : idv.toNumber (ε := ε) with
    | error t => simp [ensureNumericId, hget, ht, hn] at hdata
    | ok n =>
      refine ⟨n, rfl, ?_⟩
      obtain ⟨fs, rfl, -⟩ := obj_of_truthy_prop body idv "id" hget ht
      simp [ensureNumericId, hget, ht, hn] at hdata
      subst hdata
      simp [JSValue.setProp, JSValue.getProp, lookup_assign]
  · intro m fs hfs
    subst hfs
    have hobj : ∃ fs', data = .obj fs' := by
      simp only [ensureNumericId, JSValue.getProp] at hdata
      split at hdata
      · split at hdata
        · simp at hdata
        · simp only [Except.ok.injEq] at hdata
          exact ⟨_, hdata.symm⟩
      · simp only [Except.ok.injEq] at hdata
        exact ⟨_, hdata.symm⟩
    obtain ⟨fs', rfl⟩ := hobj
    refine ⟨?_, fs', rfl, rfl, ?_⟩
    · simp [router, postProduct, hdata, Prod]
    · intro key h₁ h₂
      rw [lookup_withoutKey _ _ _ h₂, lookup_withoutKey _ _ _ h₁]
  · intro c e hc he
    have h := (sent_of_model_error Product (.post body) c e hc he).1
    simp [Outcome.statuses, h, Request.catchResponse]

/-- C5, witness: the create test of the suite, with the `id` sent as the
string `"2"`. -/
theorem post_creates_from_body_witness :
    (router (Prod Mocks.reset)
        (.post (.obj [("id", .str "2"), ("title", .str "x"), ("price", .num (.fin 5 0))]))).sent
      = [⟨201, .json (.obj [("id", .num (.fin 2 0)), ("title", .str "x"),
          ("price", .num (.fin 5 0))])⟩] :=
  (post_creates_from_body (Prod Mocks.reset)
    (.obj [("id", .str "2"), ("title", .str "x"), ("price", .num (.fin 5 0))])
    (.obj [("id", .num (.fin 2 0)), ("title", .str "x"), ("price", .num (.fin 5 0))])
    rfl).2.2.2.1 Mocks.reset _ rfl |>.1

/-- C5, counterexample: with the mock of the test suite, whose create always
succeeds, `POST /` with the body `{"id": "", "title": "x", "price": 5}` answers
201 and echoes the `id` as the empty string, not as its numeric value
`Number("")`, which is 0. -/
theorem empty_id_echoed_unconverted :
    (router (Prod Mocks.reset)
        (.post (.obj [("id", .str ""), ("title", .str "x"), ("price", .num (.fin 5 0))]))).sent
      = [⟨201, .json (.obj [("id", .str ""), ("title", .str "x"),
          ("price", .num (.fin 5 0))])⟩] ∧
      JSValue.toNumber (ε := Unit) (.str "") = .ok (.fin 0 0) ∧
      JSValue.str "" ≠ JSValue.num (.fin 0 0) :=
  ⟨rfl, rfl, by simp⟩

/-- Every handler sends exactly one response, whatever the model does. -/
theorem one_response (Product : ProductModel ε) (req : Request) :
    ∃ r, (router Product req).sent = [r] := by
  cases req with
  | getAll =>
    simp only [router, getProducts]
    split <;> exact ⟨_, rfl⟩
  | getOne s =>
    simp only [router, getProductById]
    split
    · exact ⟨_, rfl⟩
    · split
      · exact ⟨_, rfl⟩
      · split <;> exact ⟨_, rfl⟩
  | post body =>
    simp only [router, postProduct]
    split
    · exact ⟨_, rfl⟩
    · split
      · exact ⟨_, rfl⟩
      · split <;> exact ⟨_, rfl⟩
  | put s body =>
    simp only [router, putProduct]
    split
    · exact ⟨_, rfl⟩
    · split
      · exact ⟨_, rfl⟩
      · split
        · exact ⟨_, rfl⟩
        · split <;> exact ⟨_, rfl⟩
  | patch s body =>
    simp only [router, patchProduct]
    split
    · exact ⟨_, rfl⟩
    · split
      · exact ⟨_, rfl⟩
      · split
        · exact ⟨_, rfl⟩
        · split <;> exact ⟨_, rfl⟩
  | delete s =>
    simp only [router, deleteProduct]
    split
    · exact ⟨_, rfl⟩
    · split
      · exact ⟨_, rfl⟩
      · split <;> exact ⟨_, rfl⟩

/-! ### The tests of `src/tests/productRoutes.test.js` -/

/-- The test `GET /products returns array`. -/
theorem test_get_products_returns_array :
    (router (Prod (ε := Unit) ⟨.ok (.arr [.obj [("id", .num (.fin 1 0)), ("title", .str "t"),
        ("price", .num (.fin 10 0))]]), .ok .undefined, .ok .undefined, .ok .undefined⟩)
      .getAll).sent
      = [⟨200, .json (.arr [.obj [("id", .num (.fin 1 0)), ("title", .str "t"),
          ("price", .num (.fin 10 0))]])⟩] :=
  rfl

/-- The test `GET /products/:id returns product`. -/
theorem test_get_product_by_id_returns_product :
    (router (Prod (ε := Unit) ⟨.ok .undefined, .ok (.obj [("id", .num (.fin 1 0)),
        ("title", .str "t"), ("price", .num (.fin 10 0))]), .ok .undefined, .ok .undefined⟩)
      (.getOne "1")).sent
      = [⟨200, .json (.obj [("id", .num (.fin 1 0)), ("title", .str "t"),
          ("price", .num (.fin 10 0))])⟩] :=
  rfl

/-- The test `POST /products creates product`. -/
theorem test_post_products_creates_product :
    (router (Prod Mocks.reset) (.post (.obj [("id", .num (.fin 2 0)), ("title", .str "x"),
        ("price", .num (.fin 5 0))]))).sent
      = [⟨201, .json (.obj [("id", .num (.fin 2 0)), ("title", .str "x"),
          ("price", .num (.fin 5 0))])⟩] :=
  rfl

/-- The mock keeps no submitted `save`: `POST /products` with
`{"save": 1, "title": "x"}` answers 201 with `{"title": "x"}`. -/
theorem mock_drops_submitted_save :
    (router (Prod Mocks.reset)
        (.post (.obj [("save", .num (.fin 1 0)), ("title", .str "x")]))).sent
      = [⟨201, .json (.obj [("title", .str "x")])⟩] :=
  rfl

/-- The mock keeps no submitted `__proto__`: `POST /products` with
`{"__proto__": {"id": "5"}}` answers 201 with `{}`. -/
theorem mock_drops_submitted_proto :
    (router (Prod Mocks.reset)
        (.post (.obj [("__proto__", .obj [("id", .str "5")])]))).sent
      = [⟨201, .json (.obj [])⟩] :=
  rfl

/-- The test `DELETE /products/:id returns 204 when deleted`. -/
theorem test_delete_product_returns_204 :
    (router (Prod (ε := Unit) ⟨.ok .undefined, .ok .undefined, .ok .undefined,
      .ok (.obj [("id", .num (.fin 3 0))])⟩) (.delete "3")).statuses = [204] := by
  decide

end Handlers

/-! ## Properties over the resource store -/

section Store

open StoredProduct Db

/-- The product found for an `id` has that `id`. -/
theorem findById_id (i : Int) (db : Db) (p : StoredProduct) (h : findById i db = some p) :
    p.id = some i := by
  induction db with
  | nil => simp [findById] at h
  | cons q rest ih =>
    by_cases hq : q.id = some i
    · simp [findById, hq] at h
      subst h
      exact hq
    · simp [findById, hq] at h
      exact ih h

/-- After a replacement the `id` finds the new product. -/
theorem findById_replaceFirst (i : Int) (db : Db) (p q : StoredProduct)
    (h : findById i db = some p) (hq : q.id = some i) :
    findById i (replaceFirst i q db) = some q := by
  induction db with
  | nil => simp [findById] at h
  | cons r rest ih =>
    by_cases hr : r.id = some i
    · simp [replaceFirst, findById, hr, hq]
    · simp [findById, hr] at h
      simp [replaceFirst, findById, hr, ih h]

/-- Replacing twice by the same product is replacing once. -/
theorem replaceFirst_replaceFirst (i : Int) (db : Db) (q : StoredProduct) (hq : q.id = some i) :
    replaceFirst i q (replaceFirst i q db) = replaceFirst i q db := by
  induction db with
  | nil => rfl
  | cons r rest ih =>
    by_cases hr : r.id = some i
    · simp [replaceFirst, hr, hq]
    · simp [replaceFirst, hr, ih]

/-- A product appended under a fresh `id` is the one the `id` finds. -/
theorem findById_append (i : Int) (db : Db) (p : StoredProduct)
    (h : findById i db = none) (hp : p.id = some i) :
    findById i (db ++ [p]) = some p := by
  induction db with
  | nil => simp [findById, hp]
  | cons r rest ih =>
    by_cases hr : r.id = some i
    · simp [findById, hr] at h
    · simp [findById, hr] at h
      simp [findById, hr, ih h]

/-- The `id` that validation accepts is absent or an integer Number. -/
theorem castId_eq (v : JSValue) (r : Option Int) (h : castId v = some r) :
    (v = .undefined ∧ r = none) ∨ ∃ i, v = .num (.fin i 0) ∧ r = some i := by
  unfold castId at h
  split at h
  · left; simp_all
  · right; simp_all
  · simp at h

/-- The `id` statement leaves a valid body valid, with the same fields. -/
theorem ensureNumericId_valid (fs : List (String × JSValue)) (q : StoredProduct)
    (hvalid : fromFields fs = some q) :
    ∃ fs', ensureNumericId (ε := StoreError) (.obj fs) = .ok (.obj fs') ∧
      fromFields fs' = some q := by
  cases hid : castId (JSValue.lookup "id" fs) with
  | none => simp [fromFields, hid] at hvalid
  | some r =>
    rcases castId_eq _ _ hid with ⟨hv, -⟩ | ⟨i, hv, -⟩
    · exact ⟨fs, by simp [ensureNumericId, JSValue.getProp, hv, JSValue.truthy], hvalid⟩
    · by_cases hi : i = 0
      · exact ⟨fs, by simp [ensureNumericId, JSValue.getProp, hv, JSValue.truthy,
          JSNumber.truthy, hi], hvalid⟩
      · refine ⟨JSValue.assign "id" (.num (.fin i 0)) fs, ?_, ?_⟩
        · simp [ensureNumericId, JSValue.getProp, hv, JSValue.truthy, JSNumber.truthy, hi,
            JSValue.toNumber, JSValue.setProp]
        · rw [← hvalid]
          simp [fromFields, lookup_assign, hv]

/-- A valid body is a full replace, not a `$set` document. -/
theorem applyUpdate_valid (p q : StoredProduct) (fs : List (String × JSValue))
    (hvalid : fromFields fs = some q) :
    p.applyUpdate (.obj fs) = p.replaceWith fs := by
  unfold applyUpdate
  split
  · rename_i setFields heq
    simp only [JSValue.obj.injEq] at heq
    subst heq
    simp [fromFields, JSValue.lookup, castTitle] at hvalid
  · rename_i fs' _ heq
    simp only [JSValue.obj.injEq] at heq
    subst heq
    rfl
  · rename_i _ h
    exact absurd rfl (h fs)

/-- Replace of a stored product by a valid body that carries no `id`, or the
`id` of the path: the answer is 200 and the product becomes the body's, under
the `id` of the path. -/
theorem serve_put_valid (db : Db) (s : String) (i : Int) (fs : List (String × JSValue))
    (p q : StoredProduct) (hs : stringToNumber s = .fin i 0) (hp : findById i db = some p)
    (hvalid : fromFields fs = some q) (hid : q.id = none ∨ q.id = some i) :
    (serve db (.put s (.obj fs))).1.statuses = [200] ∧
      (serve db (.put s (.obj fs))).2 = replaceFirst i { q with id := some i } db := by
  obtain ⟨fs', hfs', hvalid'⟩ := ensureNumericId_valid fs q hvalid
  have hpid := findById_id i db p hp
  have hrep : p.replaceWith fs' = some { q with id := some i } := by
    rcases hid with h | h <;> simp [replaceWith, hvalid', h, hpid]
  have hexec : exec db (.findOneAndUpdate (idFilter (.fin i 0)) (.obj fs') updateOptions)
      = (.ok ({ q with id := some i } : StoredProduct).toJS,
          replaceFirst i { q with id := some i } db) := by
    simp [exec, select, filterId, idFilter, JSValue.lookup, hp, hpid,
      applyUpdate_valid p q fs' hvalid', hrep]
  simp [serve, router, putProduct, hs, JSNumber.isNaN, hfs', Db.model, hexec, Db.after,
    Outcome.statuses, toJS, JSValue.truthy]

/-- C9 (as amended): Replace is idempotent for a body that carries no `id` or
the `id` of the path: over the store of the specification, for every state
holding a product with the path `id` and every valid body of that kind, the
same `PUT /:id` issued twice answers 200 both times and the second leaves the
store as the first left it. -/
theorem replace_idempotent (db : Db) (s : String) (i : Int) (fs : List (String × JSValue))
    (p q : StoredProduct) (hs : stringToNumber s = .fin i 0) (hp : findById i db = some p)
    (hvalid : fromFields fs = some q) (hid : q.id = none ∨ q.id = some i) :
    (serve db (.put s (.obj fs))).1.statuses = [200] ∧
      (serve (serve db (.put s (.obj fs))).2 (.put s (.obj fs))).1.statuses = [200] ∧
      (serve (serve db (.put s (.obj fs))).2 (.put s (.obj fs))).2
        = (serve db (.put s (.obj fs))).2 := by
  obtain ⟨h₁, h₂⟩ := serve_put_valid db s i fs p q hs hp hvalid hid
  have hp' := findById_replaceFirst i db p { q with id := some i } hp rfl
  obtain ⟨h₃, h₄⟩ := serve_put_valid _ s i fs _ q hs hp' hvalid hid
  rw [h₂]
  exact ⟨h₁, h₃, by rw [h₄, replaceFirst_replaceFirst i db _ rfl]⟩

/-- C9, witness: `PUT /products/1` twice, with a body without `id`, on a store
holding product 1. -/
theorem replace_idempotent_witness :
    (serve [⟨some 1, "Leather Jacket", .fin 150 0, "High quality", "fashion", "jacket.png"⟩]
        (.put "1" (.obj [("title", .str "Coat"), ("price", .num (.fin 99 0)),
          ("description", .str "Wool"), ("category", .str "fashion"),
          ("image", .str "coat.png")]))).1.statuses = [200] ∧
      (serve (serve [⟨some 1, "Leather Jacket", .fin 150 0, "High quality", "fashion",
          "jacket.png"⟩]
        (.put "1" (.obj [("title", .str "Coat"), ("price", .num (.fin 99 0)),
          ("description", .str "Wool"), ("category", .str "fashion"),
          ("image", .str "coat.png")]))).2
        (.put "1" (.obj [("title", .str "Coat"), ("price", .num (.fin 99 0)),
          ("description", .str "Wool"), ("category", .str "fashion"),
          ("image", .str "coat.png")]))).1.statuses = [200] ∧
      (serve (serve [⟨some 1, "Leather Jacket", .fin 150 0, "High quality", "fashion",
          "jacket.png"⟩]
        (.put "1" (.obj [("title", .str "Coat"), ("price", .num (.fin 99 0)),
          ("description", .str "Wool"), ("category", .str "fashion"),
          ("image", .str "coat.png")]))).2
        (.put "1" (.obj [("title", .str "Coat"), ("price", .num (.fin 99 0)),
          ("description", .str "Wool"), ("category", .str "fashion"),
          ("image", .str "coat.png")]))).2
        = (serve [⟨some 1, "Leather Jacket", .fin 150 0, "High quality", "fashion",
            "jacket.png"⟩]
          (.put "1" (.obj [("title", .str "Coat"), ("price", .num (.fin 99 0)),
            ("description", .str "Wool"), ("category", .str "fashion"),
            ("image", .str "coat.png")]))).2 :=
  replace_idempotent _ "1" 1 _ ⟨some 1, "Leather Jacket", .fin 150 0, "High quality", "fashion",
    "jacket.png"⟩ ⟨none, "Coat", .fin 99 0, "Wool", "fashion", "coat.png"⟩
    (by decide) (by decide) (by decide) (Or.inl rfl)

/-- C9, counterexample: on a store holding product 1, `PUT /products/1` with a
valid body whose `id` is 2 answers 200 the first time and moves the product to
`id` 2; the same request answers 404 the second time. -/
theorem replace_with_other_id_not_idempotent :
    (findById 1 [⟨some 1, "Leather Jacket", .fin 150 0, "High quality", "fashion",
        "jacket.png"⟩]).isSome = true ∧
      (fromFields [("id", .num (.fin 2 0)), ("title", .str "Coat"), ("price", .num (.fin 99 0)),
        ("description", .str "Wool"), ("category", .str "fashion"),
        ("image", .str "coat.png")]).isSome = true ∧
      (serve [⟨some 1, "Leather Jacket", .fin 150 0, "High quality", "fashion", "jacket.png"⟩]
        (.put "1" (.obj [("id", .num (.fin 2 0)), ("title", .str "Coat"),
          ("price", .num (.fin 99 0)), ("description", .str "Wool"),
          ("category", .str "fashion"), ("image", .str "coat.png")]))).1.statuses = [200] ∧
      (serve (serve [⟨some 1, "Leather Jacket", .fin 150 0, "High quality", "fashion",
          "jacket.png"⟩]
        (.put "1" (.obj [("id", .num (.fin 2 0)), ("title", .str "Coat"),
          ("price", .num (.fin 99 0)), ("description", .str "Wool"),
          ("category", .str "fashion"), ("image", .str "coat.png")]))).2
        (.put "1" (.obj [("id", .num (.fin 2 0)), ("title", .str "Coat"),
          ("price", .num (.fin 99 0)), ("description", .str "Wool"),
          ("category", .str "fashion"), ("image", .str "coat.png")]))).1.statuses = [404] := by
  decide

/-- What validation read from the fields of a valid payload. -/
theorem lookup_of_fromFields (fs : List (String × JSValue)) (p : StoredProduct) (i : Int)
    (hvalid : fromFields fs = some p) (hid : p.id = some i) :
    JSValue.lookup "id" fs = .num (.fin i 0) ∧ JSValue.lookup "title" fs = .str p.title ∧
      JSValue.lookup "price" fs = .num p.price ∧
      JSValue.lookup "description" fs = .str p.description ∧
      JSValue.lookup "category" fs = .str p.category ∧
      JSValue.lookup "image" fs = .str p.image := by
  unfold fromFields at hvalid
  split at hvalid
  · rename_i j t pr d c im hj ht hpr hd hc him
    simp only [Option.some.injEq] at hvalid
    subst hvalid
    simp only at hid
    subst hid
    refine ⟨?_, ?_, ?_, ?_, ?_, ?_⟩
    · rcases castId_eq _ _ hj with ⟨-, h⟩ | ⟨k, hv, hk⟩
      · simp at h
      · simp only [Option.some.injEq] at hk
        subst hk
        exact hv
    · revert ht
      cases JSValue.lookup "title" fs <;> simp [castTitle]
    · revert hpr
      cases JSValue.lookup "price" fs <;> simp [castPrice]
    · revert hd
      cases JSValue.lookup "description" fs <;> simp [castString]
    · revert hc
      cases JSValue.lookup "category" fs <;> simp [castString]
    · revert him
      cases JSValue.lookup "image" fs <;> simp [castString]
  · simp at hvalid

/-- C10: Create/Get round trip over the store of the specification: for every
valid product payload carrying an `id` that is not yet stored, `POST /` with
the payload answers 201 and `GET /:id` for that `id`, issued next, answers 200
with a product whose fields equal the fields of the payload. -/
theorem create_then_get_round_trip (db : Db) (fs : List (String × JSValue)) (p : StoredProduct)
    (i : Int) (s : String) (hvalid : fromFields fs = some p) (hid : p.id = some i)
    (hfresh : findById i db = none) (hs : stringToNumber s = .fin i 0) :
    (serve db (.post (.obj fs))).1.statuses = [201] ∧
      ∃ doc, (serve (serve db (.post (.obj fs))).2 (.getOne s)).1.sent
          = [⟨200, .json (.obj doc)⟩] ∧
        ∀ key ∈ ["id", "title", "price", "description", "category", "image"],
          JSValue.lookup key doc = JSValue.lookup key fs := by
  obtain ⟨fs', hfs', hvalid'⟩ := ensureNumericId_valid fs p hvalid
  have hsave : exec db (.save (.obj fs')) = (.ok p.toJS, db ++ [p]) := by
    simp [exec, hvalid', idTaken, hid, hfresh]
  have hcons : exec db (.construct (.obj fs')) = (.ok (.obj fs'), db) := rfl
  have hpost : (serve db (.post (.obj fs))).1.statuses = [201] ∧
      (serve db (.post (.obj fs))).2 = db ++ [p] := by
    simp [serve, router, postProduct, hfs', Db.model, hcons, hsave, Db.after, Outcome.statuses]
  have hfind := findById_append i db p hfresh hid
  have hget : exec (db ++ [p]) (.findOne (idFilter (.fin i 0))) = (.ok p.toJS, db ++ [p]) := by
    simp [exec, select, filterId, idFilter, JSValue.lookup, hfind]
  obtain ⟨hl₁, hl₂, hl₃, hl₄, hl₅, hl₆⟩ := lookup_of_fromFields fs p i hvalid hid
  refine ⟨hpost.1, [("id", .num (.fin i 0)), ("title", .str p.title), ("price", .num p.price),
    ("description", .str p.description), ("category", .str p.category),
    ("image", .str p.image)], ?_, ?_⟩
  · rw [hpost.2]
    simp only [serve, router, getProductById, hs, JSNumber.isNaN, Db.model, hget]
    simp [toJS, hid, JSValue.truthy]
  · intro key hkey
    simp only [List.mem_cons, List.mem_singleton, List.not_mem_nil, or_false] at hkey
    rcases hkey with rfl | rfl | rfl | rfl | rfl | rfl <;>
      simp [JSValue.lookup, hl₁, hl₂, hl₃, hl₄, hl₅, hl₆]

/-- C10, witness: the product of the specification's scenario, created under
`id` 1 in the empty store and read back. -/
theorem create_then_get_round_trip_witness :
    (serve [] (.post (.obj [("id", .num (.fin 1 0)), ("title", .str "Leather Jacket"),
        ("price", .num (.fin 150 0)), ("description", .str "High quality leather jacket"),
        ("category", .str "fashion"), ("image", .str "http://example.com/jacket.png")]))
      ).1.statuses = [201] ∧
      ∃ doc, (serve (serve [] (.post (.obj [("id", .num (.fin 1 0)),
          ("title", .str "Leather Jacket"), ("price", .num (.fin 150 0)),
          ("description", .str "High quality leather jacket"), ("category", .str "fashion"),
          ("image", .str "http://example.com/jacket.png")]))).2 (.getOne "1")).1.sent
          = [⟨200, .json (.obj doc)⟩] ∧
        ∀ key ∈ ["id", "title", "price", "description", "category", "image"],
          JSValue.lookup key doc
            = JSValue.lookup key [("id", .num (.fin 1 0)), ("title", .str "Leather Jacket"),
                ("price", .num (.fin 150 0)),
                ("description", .str "High quality leather jacket"),
                ("category", .str "fashion"),
                ("image", .str "http://example.com/jacket.png")] :=
  create_then_get_round_trip [] _
    ⟨some 1, "Leather Jacket", .fin 150 0, "High quality leather jacket", "fashion",
      "http://example.com/jacket.png"⟩ 1 "1" (by decide) rfl rfl (by decide)

/-! ### Uniqueness of `id` and the scenarios of the specification -/

/-- An `id` finds nothing exactly when it is not in use. -/
theorem findById_eq_none_iff (i : Int) (db : Db) : findById i db = none ↔ i ∉ ids db := by
  induction db with
  | nil => simp [findById, ids]
  | cons r rest ih =>
    by_cases hr : r.id = some i
    · simp [findById, ids, List.filterMap_cons, hr]
    · have hi : ids (r :: rest) = (match r.id with
          | some j => [j]
          | none => []) ++ ids rest := by
        simp only [ids, List.filterMap_cons]
        cases r.id <;> rfl
      rw [hi]
      cases hid : r.id with
      | none => simpa [findById, hid] using ih
      | some j =>
        have hji : ¬ j = i := fun e => hr (by rw [hid, e])
        have hij : ¬ i = j := fun e => hji e.symm
        simpa [findById, hid, hji, hij] using ih

/-- The `id`s after a replacement are old ones or the `id` of the new product. -/
theorem mem_ids_replaceFirst (i x : Int) (q : StoredProduct) (db : Db)
    (h : x ∈ ids (replaceFirst i q db)) : x ∈ ids db ∨ q.id = some x := by
  induction db with
  | nil => simp [replaceFirst, ids] at h
  | cons r rest ih =>
    by_cases hr : r.id = some i
    · simp only [replaceFirst, hr, if_true, ids, List.filterMap_cons] at h ⊢
      cases hq : q.id with
      | none =>
        simp only [hq] at h
        exact Or.inl (List.mem_cons_of_mem _ h)
      | some j =>
        simp only [hq, List.mem_cons] at h
        rcases h with h | h
        · exact Or.inr (by rw [h])
        · exact Or.inl (List.mem_cons_of_mem _ h)
    · simp only [replaceFirst, hr, if_false, ids, List.filterMap_cons] at h ⊢
      cases hid : r.id with
      | none =>
        simp only [hid] at h ⊢
        exact ih h
      | some j =>
        simp only [hid, List.mem_cons] at h ⊢
        rcases h with h | h
        · exact Or.inl (Or.inl h)
        · rcases ih h with h' | h'
          · exact Or.inl (Or.inr h')
          · exact Or.inr h'

/-- A replacement keeps the `id`s unique when the new product keeps the `id`,
has none, or takes one that is not in use. -/
theorem uniqueIds_replaceFirst (i : Int) (q : StoredProduct) (db : Db) (h : uniqueIds db)
    (hq : q.id = some i ∨ q.id = none ∨ ∃ j, q.id = some j ∧ j ∉ ids db) :
    uniqueIds (replaceFirst i q db) := by
  induction db with
  | nil => simpa [replaceFirst] using h
  | cons r rest ih =>
    by_cases hr : r.id = some i
    · simp only [uniqueIds, ids, List.filterMap_cons, hr, List.nodup_cons] at h
      simp only [replaceFirst, hr, if_true, uniqueIds, ids, List.filterMap_cons]
      rcases hq with hq | hq | ⟨j, hq, hj⟩
      · simpa [hq] using h
      · simpa [hq] using h.2
      · simp only [hq, List.nodup_cons]
        refine ⟨fun hmem => hj ?_, h.2⟩
        simp only [ids, List.filterMap_cons, hr]
        exact List.mem_cons_of_mem _ hmem
    · simp only [replaceFirst, hr, if_false]
      cases hid : r.id with
      | none =>
        have hrest : uniqueIds rest := by
          simpa [uniqueIds, ids, List.filterMap_cons, hid] using h
        have hq' : q.id = some i ∨ q.id = none ∨ ∃ j, q.id = some j ∧ j ∉ ids rest := by
          rcases hq with hq | hq | ⟨j, hq, hj⟩
          · exact Or.inl hq
          · exact Or.inr (Or.inl hq)
          · refine Or.inr (Or.inr ⟨j, hq, fun hmem => hj ?_⟩)
            simpa [ids, List.filterMap_cons, hid] using hmem
        simpa [uniqueIds, ids, List.filterMap_cons, hid] using ih hrest hq'
      | some k =>
        have hk : k ∉ ids rest ∧ uniqueIds rest := by
          simpa [uniqueIds, ids, List.filterMap_cons, hid] using h
        have hki : ¬ k = i := fun e => hr (by rw [hid, e])
        have hq' : q.id = some i ∨ q.id = none ∨ ∃ j, q.id = some j ∧ j ∉ ids rest := by
          rcases hq with hq | hq | ⟨j, hq, hj⟩
          · exact Or.inl hq
          · exact Or.inr (Or.inl hq)
          · refine Or.inr (Or.inr ⟨j, hq, fun hmem => hj ?_⟩)
            simp only [ids, List.filterMap_cons, hid]
            exact List.mem_cons_of_mem _ hmem
        have hnew : k ∉ ids (replaceFirst i q rest) := by
          intro hmem
          rcases mem_ids_replaceFirst i k q rest hmem with h' | h'
          · exact hk.1 h'
          · rcases hq with hq | hq | ⟨j, hq, hj⟩
            · rw [hq] at h'
              exact hki (Option.some.inj h').symm
            · rw [hq] at h'
              cases h'
            · rw [hq] at h'
              have hjk : j = k := Option.some.inj h'
              apply hj
              simp only [ids, List.filterMap_cons, hid]
              rw [hjk]
              exact List.mem_cons_self _ _
        have := ih hk.2 hq'
        simp only [uniqueIds, ids, List.filterMap_cons, hid, List.nodup_cons]
        exact ⟨hnew, this⟩

/-- A removal keeps the `id`s unique. -/
theorem uniqueIds_removeFirst (i : Int) (db : Db) (h : uniqueIds db) :
    uniqueIds (removeFirst i db) := by
  have hsub : ∀ d : Db, List.Sublist (ids (removeFirst i d)) (ids d) := by
    intro d
    induction d with
    | nil => simp [removeFirst]
    | cons r rest ih =>
      by_cases hr : r.id = some i
      · simp [removeFirst, hr, ids, List.filterMap_cons]
      · simp only [removeFirst, hr, if_false, ids, List.filterMap_cons]
        cases hid : r.id with
        | none => simpa [ids] using ih
        | some k => simpa [ids] using ih
  exact List.Nodup.sublist (hsub db) h

/-- Uniqueness of `id` is an invariant of the store: no operation breaks it. -/
theorem exec_uniqueIds (db : Db) (c : ModelCall) (h : uniqueIds db) : uniqueIds (exec db c).2 := by
  cases c with
  | find => exact h
  | construct data => exact h
  | findOne filter =>
    simp only [exec]
    split <;> exact h
  | save doc =>
    simp only [exec]
    split
    · split
      · rename_i p hp
        split
        · exact h
        · rename_i htaken
          cases hid : p.id with
          | none => simpa [uniqueIds, ids, List.filterMap_append, hid] using h
          | some i =>
            have hfree : i ∉ ids db := by
              rw [← findById_eq_none_iff]
              simpa [idTaken, hid] using htaken
            simp only [uniqueIds, ids, List.filterMap_append, List.filterMap_cons, hid,
              List.filterMap_nil]
            exact List.Nodup.append h (List.nodup_singleton i) (by
              intro x hx hx'
              simp only [List.mem_singleton] at hx'
              subst hx'
              exact hfree hx)
      · exact h
    · exact h
  | findOneAndDelete filter =>
    simp only [exec]
    split
    · split
      · exact uniqueIds_removeFirst _ db h
      · exact h
    · exact h
  | findOneAndUpdate filter update options =>
    simp only [exec]
    split
    · rename_i p hp
      split
      · rename_i i q hpid hq
        split
        · exact h
        · rename_i hcond
          apply uniqueIds_replaceFirst i q db h
          by_cases hsame : q.id = p.id
          · exact Or.inl (hsame.trans hpid)
          · cases hqid : q.id with
            | none => exact Or.inr (Or.inl rfl)
            | some j =>
              refine Or.inr (Or.inr ⟨j, rfl, ?_⟩)
              rw [← findById_eq_none_iff]
              have hne : ¬ some j = p.id := fun e => hsame (hqid.trans e)
              have hcond' : ¬ some j = p.id → findById j db = none := by
                simpa [idTaken, hqid] using hcond
              exact hcond' hne
      · exact h
    · exact h

/-- Scenario: `GET /products` with an empty store answers 200 with `[]`. -/
theorem scenario_list_empty_store :
    (serve [] .getAll).1.sent = [⟨200, .json (.arr [])⟩] :=
  rfl

/-- Scenario: `PATCH /products/1` with `{price: 99}` on an existing product 1
answers 200; the price becomes 99 and the other fields stay. -/
theorem scenario_patch_price :
    (serve [⟨some 1, "Leather Jacket", .fin 150 0, "High quality", "fashion", "jacket.png"⟩]
        (.patch "1" (.obj [("price", .num (.fin 99 0))]))).1.statuses = [200] ∧
      (serve [⟨some 1, "Leather Jacket", .fin 150 0, "High quality", "fashion", "jacket.png"⟩]
        (.patch "1" (.obj [("price", .num (.fin 99 0))]))).2
        = [⟨some 1, "Leather Jacket", .fin 99 0, "High quality", "fashion", "jacket.png"⟩] := by
  decide

/-- Scenario: `DELETE /products/1` on an existing product answers 204, and
then `GET /products/1` and a second `DELETE /products/1` answer 404. -/
theorem scenario_delete_then_absent :
    (serve [⟨some 1, "Leather Jacket", .fin 150 0, "High quality", "fashion", "jacket.png"⟩]
        (.delete "1")).1.statuses = [204] ∧
      (serve (serve [⟨some 1, "Leather Jacket", .fin 150 0, "High quality", "fashion",
        "jacket.png"⟩] (.delete "1")).2 (.getOne "1")).1.statuses = [404] ∧
      (serve (serve [⟨some 1, "Leather Jacket", .fin 150 0, "High quality", "fashion",
        "jacket.png"⟩] (.delete "1")).2 (.delete "1")).1.statuses = [404] := by
  decide

/-- Scenario: a second `POST /products` with an `id` in use answers 400 and
leaves the store as it was. -/
theorem scenario_duplicate_id_rejected :
    (serve [⟨some 1, "Leather Jacket", .fin 150 0, "High quality", "fashion", "jacket.png"⟩]
        (.post (.obj [("id", .num (.fin 1 0)), ("title", .str "Coat"),
          ("price", .num (.fin 99 0)), ("description", .str "Wool"),
          ("category", .str "fashion"), ("image", .str "coat.png")]))).1.statuses = [400] ∧
      (serve [⟨some 1, "Leather Jacket", .fin 150 0, "High quality", "fashion", "jacket.png"⟩]
        (.post (.obj [("id", .num (.fin 1 0)), ("title", .str "Coat"),
          ("price", .num (.fin 99 0)), ("description", .str "Wool"),
          ("category", .str "fashion"), ("image", .str "coat.png")]))).2
        = [⟨some 1, "Leather Jacket", .fin 150 0, "High quality", "fashion", "jacket.png"⟩] := by
  decide

end Store

end ProductRoutes
